import Mathlib

/-!
# Verification of the callback registry and notification-dispatch engine

Shallow embedding of `src/tools/callback_tools.py` (and its near-duplicate
`src/webhook_callback_server.py`): the in-memory registry
(`task_results`, `task_callbacks`), the control-surface operations
(`register_callback`, `get_registered_callbacks`, `get_task_result`), the
task runner (`process_callback_task`) and the fan-out notifier
(`send_callbacks`).

State is passed explicitly; wall-clock timestamps become explicit `Nat`
parameters; the HTTP transport becomes an oracle
`net : CallbackRequest → HttpResult`, where a Python exception raised by the
POST is the `transportError` constructor (the per-recipient `try/except` in
`send_callbacks` converts it into a recorded outcome).
-/

namespace CallbackTools

/-- One entry of `task_callbacks[task_id]`: the `callback_info` dict built by
`register_callback`. -/
structure Subscription where
  client_id : String
  callback_url : String
  registered_at : Nat
deriving Repr, DecidableEq

/-- The module-level shared state of `shared_state.py`:
`task_results : Dict[str, str]` and `task_callbacks : Dict[str, List[dict]]`,
as partial maps. -/
structure SysState where
  task_results : String → Option String
  task_callbacks : String → Option (List Subscription)

/-- Pointwise update of a partial map (dict assignment / deletion at one key). -/
def updateMap {α : Type} (m : String → Option α) (k : String) (v : Option α) :
    String → Option α :=
  fun k' => if k' = k then v else m k'

/-- The empty shared state (both dicts empty at module load). -/
def initState : SysState :=
  { task_results := fun _ => none, task_callbacks := fun _ => none }

/-- Return value of the `register_callback` tool (the fields of the returned
dict that do not repeat a wall-clock read). -/
structure RegisterResponse where
  status : String
  task_id : String
  client_id : String
  callback_url : String
  registered_callbacks : Nat
deriving Repr, DecidableEq

/-- `register_callback(task_id, client_id, callback_url)`: build
`callback_info`, create `task_callbacks[task_id]` as `[]` if absent, append,
and report the new length. -/
def register_callback (st : SysState) (task_id client_id callback_url : String)
    (now : Nat) : SysState × RegisterResponse :=
  let callback_info : Subscription :=
    { client_id := client_id, callback_url := callback_url, registered_at := now }
  let newList := ((st.task_callbacks task_id).getD []) ++ [callback_info]
  let st' := { st with
    task_callbacks := updateMap st.task_callbacks task_id (some newList) }
  (st', { status := "registered", task_id := task_id, client_id := client_id,
          callback_url := callback_url, registered_callbacks := newList.length })

/-- `get_registered_callbacks(task_id)`: `task_callbacks.get(task_id, [])`,
returned as `(callback_count, callbacks)` — a snapshot copy of the list. -/
def get_registered_callbacks (st : SysState) (task_id : String) :
    Nat × List Subscription :=
  let callbacks := (st.task_callbacks task_id).getD []
  (callbacks.length, callbacks)

/-- Return value of the `get_task_result` tool. -/
structure ResultResponse where
  task_id : String
  status : String
  result : Option String
  message : String
deriving Repr, DecidableEq

/-- `get_task_result(task_id)`: membership test on `task_results`; returns the
stored value with status `"completed"`, or `None` with
`"not_found_or_pending"`. -/
def get_task_result (st : SysState) (task_id : String) : ResultResponse :=
  match st.task_results task_id with
  | some r =>
      { task_id := task_id, status := "completed", result := some r,
        message := "✅ Task completed!" }
  | none =>
      { task_id := task_id, status := "not_found_or_pending", result := none,
        message := "⏳ Task not found or still processing" }

/-- The completion-event dict built by `process_callback_task`: the `result`
key is present only in the `task_completed` dict, the `error` key only in the
`task_failed` dict (`Option` models key presence). -/
structure EventPayload where
  type : String
  task_id : String
  started_by : String
  result : Option String
  error : Option String
  message : String
  completion_time : Nat
deriving Repr, DecidableEq

/-- The `task_completed` payload literal of `process_callback_task`. -/
def completedPayload (task_id client_id result : String) (t : Nat) : EventPayload :=
  { type := "task_completed", task_id := task_id, started_by := client_id,
    result := some result, error := none,
    message := "🎉 Task completed successfully!", completion_time := t }

/-- The `task_failed` payload literal of `process_callback_task`. -/
def failedPayload (task_id client_id err : String) (t : Nat) : EventPayload :=
  { type := "task_failed", task_id := task_id, started_by := client_id,
    result := none, error := some err,
    message := "❌ Task failed", completion_time := t }

/-- One outbound HTTP POST issued by `send_callbacks`: target URL, the merged
JSON body `{**payload, "callback_client_id": ..., "callback_sent_at": ...}`,
and the `Content-Type` header. -/
structure CallbackRequest where
  url : String
  payload : EventPayload
  callback_client_id : String
  callback_sent_at : Nat
  contentType : String
deriving Repr, DecidableEq

/-- Build the POST for one subscription, as the loop body of `send_callbacks`
does: URL and client id from the `callback_info`, payload merged with the two
callback fields, header `Content-Type: application/json`. -/
def buildRequest (payload : EventPayload) (cb : Subscription) (now : Nat) :
    CallbackRequest :=
  { url := cb.callback_url, payload := payload, callback_client_id := cb.client_id,
    callback_sent_at := now, contentType := "application/json" }

/-- What the transport oracle says one POST did: an HTTP response with some
status code, or a raised transport-level exception (timeout, refused, DNS). -/
inductive HttpResult where
  | response (status : Nat)
  | transportError (msg : String)
deriving Repr, DecidableEq

/-- Per-recipient outcome recorded by `send_callbacks`: the `200` branch, the
non-200 warning branch, or the `except` branch. -/
inductive DeliveryOutcome where
  | delivered
  | non200 (status : Nat)
  | failed (msg : String)
deriving Repr, DecidableEq

/-- The classification in the loop body of `send_callbacks`:
`status_code == 200` → delivered, other status → warning, exception → failed. -/
def classify : HttpResult → DeliveryOutcome
  | .response 200 => .delivered
  | .response s => .non200 s
  | .transportError m => .failed m

/-- One iteration of the delivery loop: build the request, run it through the
transport, record the outcome. The `try/except` around the iteration makes
this total: an exception becomes a recorded `.failed` outcome. -/
def attemptDelivery (net : CallbackRequest → HttpResult) (payload : EventPayload)
    (now : Nat) (cb : Subscription) : CallbackRequest × DeliveryOutcome :=
  let req := buildRequest payload cb now
  (req, classify (net req))

/-- `send_callbacks(task_id, payload)`: early return if `task_id` is not in
`task_callbacks`; otherwise attempt delivery to every registered subscription
in list order, then delete the whole `task_callbacks[task_id]` entry. Returns
the new state and the per-recipient attempt log. -/
def send_callbacks (net : CallbackRequest → HttpResult) (st : SysState)
    (task_id : String) (payload : EventPayload) (now : Nat) :
    SysState × List (CallbackRequest × DeliveryOutcome) :=
  match st.task_callbacks task_id with
  | none => (st, [])
  | some callbacks =>
      let attempts := callbacks.map (attemptDelivery net payload now)
      let st' := { st with
        task_callbacks := updateMap st.task_callbacks task_id none }
      (st', attempts)

/-- The fixed result string computed by `process_callback_task` on success:
`f"Task {task_id} completed successfully with data: [processed_data_123]"`. -/
def taskResultValue (task_id : String) : String :=
  "Task " ++ task_id ++ " completed successfully with data: [processed_data_123]"

/-- Whether the task body (the code inside `try` up to and including the
construction of `result`) ran to completion or raised, with the string the
raised exception prints as. -/
inductive BodyOutcome where
  | ok
  | raises (err : String)
deriving Repr, DecidableEq

/-- Registry/notifier actions of one run of `process_callback_task`, in
program order: writing `task_results[task_id]` and invoking `send_callbacks`. -/
inductive RunnerAction where
  | putResult (task_id value : String)
  | notify (payload : EventPayload)
deriving Repr, DecidableEq

/-- `process_callback_task(task_id, client_id)`: on a body that completes,
store the result string then send the `task_completed` callbacks; on a body
that raises, store nothing and send the `task_failed` callbacks. Returns the
final state, the ordered registry/notifier actions, and the attempt log. -/
def process_callback_task (net : CallbackRequest → HttpResult)
    (body : BodyOutcome) (st : SysState) (task_id client_id : String)
    (now : Nat) :
    SysState × List RunnerAction × List (CallbackRequest × DeliveryOutcome) :=
  match body with
  | .ok =>
      let result := taskResultValue task_id
      let st1 := { st with
        task_results := updateMap st.task_results task_id (some result) }
      let payload := completedPayload task_id client_id result now
      let out := send_callbacks net st1 task_id payload now
      (out.1, [.putResult task_id result, .notify payload], out.2)
  | .raises e =>
      let payload := failedPayload task_id client_id e now
      let out := send_callbacks net st task_id payload now
      (out.1, [.notify payload], out.2)

/-- Scheduling events of the delivery loop of `send_callbacks`: dispatching
the POST for the `i`-th subscription (`issue i`) and that POST resolving —
response received or exception observed (`resolve i`). -/
inductive TraceEv where
  | issue (i : Nat)
  | resolve (i : Nat)
deriving Repr, DecidableEq

/-- The scheduling trace of the loop
`for callback_info in callbacks: ... response = await client.post(...)`,
starting at index `i`: each iteration issues its POST and awaits its
resolution before the next iteration begins. -/
def deliveryTraceFrom (i : Nat) : List Subscription → List TraceEv
  | [] => []
  | _ :: rest => .issue i :: .resolve i :: deliveryTraceFrom (i + 1) rest

/-- The scheduling trace of one full `send_callbacks` delivery pass. -/
def deliveryTrace (subs : List Subscription) : List TraceEv :=
  deliveryTraceFrom 0 subs

/-- The first registry access of `send_callbacks`: the membership check plus
`callbacks = task_callbacks[task_id]`, as `get(task_id, [])`. -/
def deliverRead (st : SysState) (task_id : String) : List Subscription :=
  (st.task_callbacks task_id).getD []

/-- The last registry access of `send_callbacks`:
`if task_id in task_callbacks: del task_callbacks[task_id]`. -/
def deliverCleanup (st : SysState) (task_id : String) : SysState :=
  { st with task_callbacks := updateMap st.task_callbacks task_id none }

/-- Modelled from the spec: `TakeAndClearSubscriptions(task_id)` "atomically
reads and removes the task's subscription list in one step"; no such
single-step primitive exists in the source, where `send_callbacks` reads
(`deliverRead`) and deletes (`deliverCleanup`) in two separate steps with
suspension points between them. -/
def TakeAndClearSubscriptions (st : SysState) (task_id : String) :
    List Subscription × SysState :=
  ((st.task_callbacks task_id).getD [],
   { st with task_callbacks := updateMap st.task_callbacks task_id none })

/-- Registry shape invariant: every task id present in `task_callbacks` maps
to a non-empty list. -/
def RegistryInv (st : SysState) : Prop :=
  ∀ t l, st.task_callbacks t = some l → l ≠ []

/-- `N` sequential `register_callback` calls for one task id, threading the
state; each triple is `(client_id, callback_url, now)`. -/
def registerAll (st : SysState) (task_id : String)
    (regs : List (String × String × Nat)) : SysState :=
  regs.foldl
    (fun s r => (register_callback s task_id r.1 r.2.1 r.2.2).1) st

/-- The subscription a `(client_id, callback_url, now)` registration triple
stores. -/
def subOf (r : String × String × Nat) : Subscription :=
  { client_id := r.1, callback_url := r.2.1, registered_at := r.2.2 }

/-! ## Concrete fixtures used by witnesses and counterexamples -/

/-- First demo subscription (client `"c1"` at `http://a/webhook`). -/
def sub1 : Subscription :=
  { client_id := "c1", callback_url := "http://a/webhook", registered_at := 0 }

/-- Second demo subscription (client `"c2"` at `http://b/webhook`). -/
def sub2 : Subscription :=
  { client_id := "c2", callback_url := "http://b/webhook", registered_at := 1 }

/-- State after registering `sub1` for task `"t1"` on the empty state. -/
def stOne : SysState :=
  (register_callback initState "t1" "c1" "http://a/webhook" 0).1

/-- State after registering `sub1` then `sub2` for task `"t1"`. -/
def stTwo : SysState :=
  (register_callback stOne "t1" "c2" "http://b/webhook" 1).1

/-- The two demo subscriptions in registration order. -/
def subsTwo : List Subscription := [sub1, sub2]

/-- A transport where `c1`'s endpoint is unreachable and every other endpoint
answers with status 500. -/
def netFlaky : CallbackRequest → HttpResult :=
  fun req =>
    if req.callback_client_id = "c1" then .transportError "connection refused"
    else .response 500

/-- A completed-task payload for task `"t1"` started by `"ca"`. -/
def payloadDone : EventPayload :=
  completedPayload "t1" "ca" (taskResultValue "t1") 5

/-! ## Helper lemmas -/

lemma updateMap_self {α : Type} (m : String → Option α) (k : String)
    (v : Option α) : updateMap m k v k = v := by
  simp [updateMap]

lemma register_callback_lookup (st : SysState) (tid cid url : String)
    (now : Nat) :
    ((register_callback st tid cid url now).1).task_callbacks tid =
      some ((st.task_callbacks tid).getD [] ++
        [{ client_id := cid, callback_url := url, registered_at := now }]) := by
  simp [register_callback, updateMap_self]

lemma register_callback_lookup_ne (st : SysState) (tid cid url : String)
    (now : Nat) (t : String) (h : t ≠ tid) :
    ((register_callback st tid cid url now).1).task_callbacks t =
      st.task_callbacks t := by
  simp [register_callback, updateMap, h]

lemma send_callbacks_results (net : CallbackRequest → HttpResult)
    (st : SysState) (tid : String) (p : EventPayload) (now : Nat) :
    ((send_callbacks net st tid p now).1).task_results = st.task_results := by
  cases h : st.task_callbacks tid <;> simp [send_callbacks, h]

lemma send_callbacks_phases (net : CallbackRequest → HttpResult)
    (st : SysState) (tid : String) (p : EventPayload) (now : Nat)
    (l : List Subscription) (h : st.task_callbacks tid = some l) :
    send_callbacks net st tid p now =
      (deliverCleanup st tid, l.map (attemptDelivery net p now)) := by
  simp [send_callbacks, h, deliverCleanup]

lemma deliverCleanup_lookup (st : SysState) (tid : String) :
    (deliverCleanup st tid).task_callbacks tid = none := by
  simp [deliverCleanup, updateMap_self]

lemma issue_mem_traceFrom :
    ∀ (subs : List Subscription) (i k : Nat), i ≤ k → k < i + subs.length →
      TraceEv.issue k ∈ deliveryTraceFrom i subs := by
  intro subs
  induction subs with
  | nil =>
      intro i k h1 h2
      simp only [List.length_nil] at h2
      omega
  | cons s rest ih =>
      intro i k h1 h2
      by_cases hk : k = i
      · subst hk
        exact List.mem_cons_self _ _
      · refine List.mem_cons_of_mem _ (List.mem_cons_of_mem _ ?_)
        refine ih (i + 1) k (by omega) ?_
        simp only [List.length_cons] at h2
        omega

lemma resolve_mem_traceFrom :
    ∀ (subs : List Subscription) (i k : Nat), i ≤ k → k < i + subs.length →
      TraceEv.resolve k ∈ deliveryTraceFrom i subs := by
  intro subs
  induction subs with
  | nil =>
      intro i k h1 h2
      simp only [List.length_nil] at h2
      omega
  | cons s rest ih =>
      intro i k h1 h2
      by_cases hk : k = i
      · subst hk
        exact List.mem_cons_of_mem _ (List.mem_cons_self _ _)
      · refine List.mem_cons_of_mem _ (List.mem_cons_of_mem _ ?_)
        refine ih (i + 1) k (by omega) ?_
        simp only [List.length_cons] at h2
        omega

lemma resolve_before_next_issue :
    ∀ (subs : List Subscription) (i j : Nat), i ≤ j → j + 1 < i + subs.length →
      List.Sublist [TraceEv.resolve j, TraceEv.issue (j + 1)]
        (deliveryTraceFrom i subs) := by
  intro subs
  induction subs with
  | nil =>
      intro i j h1 h2
      simp only [List.length_nil] at h2
      omega
  | cons s rest ih =>
      intro i j h1 h2
      by_cases hj : j = i
      · subst hj
        refine List.Sublist.cons _ (List.Sublist.cons₂ _ ?_)
        rw [List.singleton_sublist]
        refine issue_mem_traceFrom rest (j + 1) (j + 1) (le_refl _) ?_
        simp only [List.length_cons] at h2
        omega
      · refine List.Sublist.cons _ (List.Sublist.cons _ ?_)
        refine ih (i + 1) j (by omega) ?_
        simp only [List.length_cons] at h2
        omega

lemma registerAll_lookup (tid : String) (regs : List (String × String × Nat)) :
    ∀ st : SysState,
      ((registerAll st tid regs).task_callbacks tid).getD [] =
        ((st.task_callbacks tid).getD []) ++ regs.map subOf := by
  induction regs with
  | nil => intro st; simp [registerAll]
  | cons r rest ih =>
      intro st
      have step :
          registerAll st tid (r :: rest) =
            registerAll ((register_callback st tid r.1 r.2.1 r.2.2).1) tid rest := by
        simp [registerAll]
      rw [step, ih, register_callback_lookup]
      simp [subOf]

/-- State after a completed run of `process_callback_task` for task `"t1"`
started by `"ca"` over `stTwo` (result stored, subscriptions cleared). -/
def stRes : SysState :=
  (process_callback_task netFlaky .ok stTwo "t1" "ca" 5).1

/-- `stRes` with `sub1` and `sub2` registered again for `"t1"` (registration
after completion is legal). -/
def stRework : SysState :=
  (register_callback
    ((register_callback stRes "t1" "c1" "http://a/webhook" 0).1)
    "t1" "c2" "http://b/webhook" 1).1

/-! ## Claim theorems -/

/-- C6: `register_callback` is total (never fails), appends the new
subscription to the task's list — creating the list when absent, keeping
duplicate `(client_id, callback_url)` pairs — and returns the new count for
that task; `N` sequential registrations starting from a state with no entry
for the task leave exactly the `N` subscriptions in insertion order, as
reported by `get_registered_callbacks`. -/
theorem C6_register_appends_and_counts :
    (∀ (st : SysState) (tid cid url : String) (now : Nat),
      ((register_callback st tid cid url now).1).task_callbacks tid =
        some ((st.task_callbacks tid).getD [] ++
          [{ client_id := cid, callback_url := url, registered_at := now }]) ∧
      ((register_callback st tid cid url now).2).registered_callbacks =
        ((st.task_callbacks tid).getD []).length + 1 ∧
      ((register_callback st tid cid url now).2).status = "registered") ∧
    (∀ (st : SysState) (tid : String) (regs : List (String × String × Nat)),
      st.task_callbacks tid = none →
      get_registered_callbacks (registerAll st tid regs) tid =
        (regs.length, regs.map subOf)) := by
  constructor
  · intro st tid cid url now
    refine ⟨register_callback_lookup st tid cid url now, ?_, rfl⟩
    simp [register_callback]
  · intro st tid regs h
    have hl := registerAll_lookup tid regs st
    rw [h] at hl
    simp only [Option.getD_none, List.nil_append] at hl
    simp [get_registered_callbacks, hl]

/-- Witness for C6: two registrations with the identical
`("c1", "http://a/webhook")` pair on the empty state leave two entries, in
insertion order, with no de-duplication. -/
theorem C6_register_appends_and_counts_witness :
    get_registered_callbacks
        (registerAll initState "t1"
          [("c1", "http://a/webhook", 0), ("c1", "http://a/webhook", 0)]) "t1" =
      (2, [{ client_id := "c1", callback_url := "http://a/webhook",
             registered_at := 0 },
           { client_id := "c1", callback_url := "http://a/webhook",
             registered_at := 0 }]) :=
  C6_register_appends_and_counts.2 initState "t1"
    [("c1", "http://a/webhook", 0), ("c1", "http://a/webhook", 0)] rfl

/-- C7: `get_task_result` returns status `"completed"` with the stored value
when a result exists for the id, and status `"not_found_or_pending"` with a
`None` result — not an error — when the id is unknown or still pending. -/
theorem C7_get_result_total (st : SysState) (tid : String) :
    (∀ r, st.task_results tid = some r →
      get_task_result st tid =
        { task_id := tid, status := "completed", result := some r,
          message := "✅ Task completed!" }) ∧
    (st.task_results tid = none →
      get_task_result st tid =
        { task_id := tid, status := "not_found_or_pending", result := none,
          message := "⏳ Task not found or still processing" }) := by
  constructor
  · intro r h
    simp [get_task_result, h]
  · intro h
    simp [get_task_result, h]

/-- Witness for C7: after the completed run stored in `stRes`, task `"t1"`
reports completed with the stored value, and the unknown id `"unknown"`
reports not-found-or-pending with a null result. -/
theorem C7_get_result_total_witness :
    get_task_result stRes "t1" =
      { task_id := "t1", status := "completed",
        result := some (taskResultValue "t1"),
        message := "✅ Task completed!" } ∧
    get_task_result initState "unknown" =
      { task_id := "unknown", status := "not_found_or_pending", result := none,
        message := "⏳ Task not found or still processing" } :=
  ⟨(C7_get_result_total stRes "t1").1 (taskResultValue "t1") (by decide),
   (C7_get_result_total initState "unknown").2 rfl⟩

/-- C10: the stored result of a successful run is the fixed string determined
by the task id alone — independent of the transport, the prior state, the
starting client id and the completion time — so two completed runs of the
same task id store the identical value. -/
theorem C10_result_depends_only_on_task_id
    (net net' : CallbackRequest → HttpResult) (st st' : SysState)
    (tid cid cid' : String) (now now' : Nat) :
    ((process_callback_task net .ok st tid cid now).1).task_results tid =
      some (taskResultValue tid) ∧
    ((process_callback_task net' .ok st' tid cid' now').1).task_results tid =
      ((process_callback_task net .ok st tid cid now).1).task_results tid := by
  have key : ∀ (n : CallbackRequest → HttpResult) (s : SysState) (c : String)
      (t : Nat),
      ((process_callback_task n .ok s tid c t).1).task_results tid =
        some (taskResultValue tid) := by
    intro n s c t
    simp only [process_callback_task]
    rw [send_callbacks_results]
    exact updateMap_self ..
  exact ⟨key net st cid now, by rw [key, key]⟩

/-- C1: for a task with `K` registered subscriptions a `send_callbacks` pass
never raises to its caller (for every transport oracle it is a total function
returning a state and an attempt log) and attempts delivery to all `K`
recipients: the log is exactly the per-recipient attempt mapped over the
subscription list, so each recorded outcome (delivered / non-200 warning /
transport failure) is a function of that recipient's own request alone, no
attempt is retried, and no recipient's outcome prevents another's attempt. -/
theorem C1_fanout_isolated (net : CallbackRequest → HttpResult) (st : SysState)
    (tid : String) (payload : EventPayload) (now : Nat)
    (subs : List Subscription) (h : st.task_callbacks tid = some subs) :
    (send_callbacks net st tid payload now).2 =
      subs.map (attemptDelivery net payload now) ∧
    ((send_callbacks net st tid payload now).2).length = subs.length := by
  rw [send_callbacks_phases net st tid payload now subs h]
  simp

/-- Witness for C1: two subscriptions, the first unreachable and the second
answering 500 — both attempts are made and logged. -/
theorem C1_fanout_isolated_witness :
    (send_callbacks netFlaky stTwo "t1" payloadDone 5).2 =
      [sub1, sub2].map (attemptDelivery netFlaky payloadDone 5) ∧
    ((send_callbacks netFlaky stTwo "t1" payloadDone 5).2).length = 2 :=
  C1_fanout_isolated netFlaky stTwo "t1" payloadDone 5 [sub1, sub2] (by decide)

/-- C2: after a delivery pass for a task with at least one registered
subscription, the task's subscription entry is removed — however many
deliveries failed — so a subsequent listing returns empty, while the stored
results are untouched and `get_task_result` answers exactly as before the
pass. -/
theorem C2_cleanup_after_delivery (net : CallbackRequest → HttpResult)
    (st : SysState) (tid : String) (payload : EventPayload) (now : Nat)
    (subs : List Subscription) (h : st.task_callbacks tid = some subs)
    (_hne : subs ≠ []) :
    ((send_callbacks net st tid payload now).1).task_callbacks tid = none ∧
    get_registered_callbacks (send_callbacks net st tid payload now).1 tid =
      (0, []) ∧
    ((send_callbacks net st tid payload now).1).task_results =
      st.task_results ∧
    get_task_result (send_callbacks net st tid payload now).1 tid =
      get_task_result st tid := by
  rw [send_callbacks_phases net st tid payload now subs h]
  refine ⟨deliverCleanup_lookup st tid, ?_, rfl, rfl⟩
  simp [get_registered_callbacks, deliverCleanup_lookup]

/-- Witness for C2: `stRework` holds a stored result for `"t1"` and two
re-registered subscriptions; a pass where both deliveries fail still clears
the entry and leaves the queryable result intact. -/
theorem C2_cleanup_after_delivery_witness :
    ((send_callbacks netFlaky stRework "t1" payloadDone 9).1).task_callbacks
        "t1" = none ∧
    get_registered_callbacks
        (send_callbacks netFlaky stRework "t1" payloadDone 9).1 "t1" =
      (0, []) ∧
    ((send_callbacks netFlaky stRework "t1" payloadDone 9).1).task_results =
      stRework.task_results ∧
    get_task_result (send_callbacks netFlaky stRework "t1" payloadDone 9).1
        "t1" =
      get_task_result stRework "t1" :=
  C2_cleanup_after_delivery netFlaky stRework "t1" payloadDone 9 [sub1, sub2]
    (by decide) (by decide)

/-- C5: a run of `process_callback_task` whose body raises leaves
`task_results` completely unchanged (a Failed completion never writes a
result); a completed run stores the result for its task id; and each run
performs exactly one notifier invocation — after the `putResult` in the
completed case, as the only action in the failed case — with the matching
completed/failed payload. -/
theorem C5_runner_result_and_notify (net : CallbackRequest → HttpResult)
    (st : SysState) (tid cid : String) (now : Nat) (e : String) :
    ((process_callback_task net (.raises e) st tid cid now).1).task_results =
      st.task_results ∧
    ((process_callback_task net .ok st tid cid now).1).task_results tid =
      some (taskResultValue tid) ∧
    (process_callback_task net (.raises e) st tid cid now).2.1 =
      [.notify (failedPayload tid cid e now)] ∧
    (process_callback_task net .ok st tid cid now).2.1 =
      [.putResult tid (taskResultValue tid),
       .notify (completedPayload tid cid (taskResultValue tid) now)] := by
  refine ⟨?_, ?_, rfl, rfl⟩
  · simp only [process_callback_task]
    rw [send_callbacks_results]
  · simp only [process_callback_task]
    rw [send_callbacks_results]
    exact updateMap_self ..

/-- C8: every outbound POST of a delivery pass goes to the subscription's
`callback_url` with `Content-Type: application/json` and a body that is the
completion event's fields extended with `callback_client_id` (that
subscription's client id) and `callback_sent_at`; the completed event carries
`result` and no `error` with type `"task_completed"`, the failed event
carries `error` and no `result` with type `"task_failed"`. -/
theorem C8_outbound_payload_shape (net : CallbackRequest → HttpResult)
    (st : SysState) (tid cid : String) (now : Nat) (e : String) :
    ((process_callback_task net .ok st tid cid now).2.2).map Prod.fst =
      (deliverRead st tid).map
        (fun cb =>
          buildRequest (completedPayload tid cid (taskResultValue tid) now) cb
            now) ∧
    ((process_callback_task net (.raises e) st tid cid now).2.2).map Prod.fst =
      (deliverRead st tid).map
        (fun cb => buildRequest (failedPayload tid cid e now) cb now) ∧
    (∀ (p : EventPayload) (cb : Subscription) (t : Nat),
      buildRequest p cb t =
        { url := cb.callback_url, payload := p,
          callback_client_id := cb.client_id, callback_sent_at := t,
          contentType := "application/json" }) ∧
    (completedPayload tid cid (taskResultValue tid) now).result =
      some (taskResultValue tid) ∧
    (completedPayload tid cid (taskResultValue tid) now).error = none ∧
    (completedPayload tid cid (taskResultValue tid) now).type =
      "task_completed" ∧
    (failedPayload tid cid e now).error = some e ∧
    (failedPayload tid cid e now).result = none ∧
    (failedPayload tid cid e now).type = "task_failed" := by
  refine ⟨?_, ?_, fun p cb t => rfl, rfl, rfl, rfl, rfl, rfl, rfl⟩ <;>
    cases h : st.task_callbacks tid <;>
      simp [process_callback_task, send_callbacks, h, deliverRead,
        attemptDelivery]

/-- C3 counterexample: with two registered subscriptions, the delivery loop's
scheduling trace resolves the first POST before the second is issued — so the
second attempt is not issued without waiting for the first to finish,
refuting parallel dispatch. -/
theorem C3_parallel_dispatch_counterexample :
    deliveryTrace subsTwo =
      [.issue 0, .resolve 0, .issue 1, .resolve 1] ∧
    ¬ List.Sublist [TraceEv.issue 1, TraceEv.resolve 0]
        (deliveryTrace subsTwo) := by
  decide

/-- C3 (amended): delivery attempts are dispatched sequentially — each POST
resolves before the next one is issued — and the pass is still a bounded
join: every dispatched attempt's resolution is in the trace before
`send_callbacks` returns. -/
theorem C3_sequential_dispatch_bounded_join (subs : List Subscription) :
    (∀ j, j + 1 < subs.length →
      List.Sublist [TraceEv.resolve j, TraceEv.issue (j + 1)]
        (deliveryTrace subs)) ∧
    (∀ j, j < subs.length → TraceEv.resolve j ∈ deliveryTrace subs) := by
  constructor
  · intro j hj
    exact resolve_before_next_issue subs 0 j (Nat.zero_le j) (by omega)
  · intro j hj
    exact resolve_mem_traceFrom subs 0 j (Nat.zero_le j) (by omega)

/-- Witness for the amended C3 at the two-subscription fixture. -/
theorem C3_sequential_dispatch_bounded_join_witness :
    List.Sublist [TraceEv.resolve 0, TraceEv.issue 1] (deliveryTrace subsTwo) ∧
    TraceEv.resolve 1 ∈ deliveryTrace subsTwo :=
  ⟨(C3_sequential_dispatch_bounded_join subsTwo).1 0 (by decide),
   (C3_sequential_dispatch_bounded_join subsTwo).2 1 (by decide)⟩

/-- C4 counterexample: the source has no one-step take-and-clear.  In the
interleavable execution read(`t1`) → register(`c2`) → cleanup(`t1`) of
`send_callbacks`'s two separate registry accesses: after the read the list is
still registered (an intervening read-but-not-removed state, observable
through `get_registered_callbacks`), the taken sequence is only `[sub1]`, the
cleanup then removes `sub2` undelivered, and the outcome matches neither
serialization of an atomic `TakeAndClearSubscriptions` with that
registration. -/
theorem C4_atomic_take_counterexample :
    deliverRead stOne "t1" = [sub1] ∧
    get_registered_callbacks stOne "t1" = (1, [sub1]) ∧
    (deliverCleanup stTwo "t1").task_callbacks "t1" = none ∧
    sub2 ∉ deliverRead stOne "t1" ∧
    ((register_callback (TakeAndClearSubscriptions stOne "t1").2 "t1" "c2"
        "http://b/webhook" 1).1).task_callbacks "t1" = some [sub2] ∧
    (TakeAndClearSubscriptions stTwo "t1").1 = [sub1, sub2] := by
  decide

/-- C4 (amended): the take is destructive but not atomic: `send_callbacks`
reads the task's subscription list and deletes the entry in two separate
steps.  The read returns the previously registered sequence and a listing
immediately after the cleanup returns empty; but between the two steps the
list remains registered and listable, and a subscription registered in that
window is deleted by the cleanup without having been part of the read
sequence. -/
theorem C4_take_destructive_not_atomic (st : SysState) (tid : String)
    (l : List Subscription) (cid url : String) (now : Nat)
    (h : st.task_callbacks tid = some l) :
    deliverRead st tid = l ∧
    (deliverCleanup st tid).task_callbacks tid = none ∧
    get_registered_callbacks (deliverCleanup st tid) tid = (0, []) ∧
    get_registered_callbacks st tid = (l.length, l) ∧
    (deliverCleanup (register_callback st tid cid url now).1
        tid).task_callbacks tid = none := by
  refine ⟨by simp [deliverRead, h], deliverCleanup_lookup st tid, ?_,
    by simp [get_registered_callbacks, h], deliverCleanup_lookup _ tid⟩
  simp [get_registered_callbacks, deliverCleanup_lookup]

/-- Witness for the amended C4 at the one-subscription fixture with `c2`
registering in the window between read and cleanup. -/
theorem C4_take_destructive_not_atomic_witness :
    deliverRead stOne "t1" = [sub1] ∧
    (deliverCleanup stOne "t1").task_callbacks "t1" = none ∧
    get_registered_callbacks (deliverCleanup stOne "t1") "t1" = (0, []) ∧
    get_registered_callbacks stOne "t1" = ([sub1].length, [sub1]) ∧
    (deliverCleanup (register_callback stOne "t1" "c2" "http://b/webhook" 1).1
        "t1").task_callbacks "t1" = none :=
  C4_take_destructive_not_atomic stOne "t1" [sub1] "c2" "http://b/webhook" 1
    (by decide)

/-- C9: every registry operation keeps the shape invariant that a task id
present in `task_callbacks` maps to a non-empty list — registration creates a
list only to immediately append to it, and the notifier's cleanup deletes the
whole entry rather than leaving an empty list — and under that invariant the
notifier's "no callbacks registered" early return fires exactly when the task
has no entry, i.e. exactly when the read list is empty. -/
theorem C9_registry_nonempty_invariant :
    RegistryInv initState ∧
    (∀ (st : SysState) (tid cid url : String) (now : Nat), RegistryInv st →
      RegistryInv (register_callback st tid cid url now).1) ∧
    (∀ (net : CallbackRequest → HttpResult) (st : SysState) (tid : String)
      (p : EventPayload) (now : Nat), RegistryInv st →
      RegistryInv (send_callbacks net st tid p now).1) ∧
    (∀ (net : CallbackRequest → HttpResult) (body : BodyOutcome)
      (st : SysState) (tid cid : String) (now : Nat), RegistryInv st →
      RegistryInv (process_callback_task net body st tid cid now).1) ∧
    (∀ (st : SysState) (tid : String), RegistryInv st →
      (st.task_callbacks tid = none ↔ deliverRead st tid = [])) := by
  have hreg : ∀ (st : SysState) (tid cid url : String) (now : Nat),
      RegistryInv st → RegistryInv (register_callback st tid cid url now).1 := by
    intro st tid cid url now hInv t l h
    by_cases ht : t = tid
    · subst ht
      rw [register_callback_lookup] at h
      cases h
      simp
    · rw [register_callback_lookup_ne st tid cid url now t ht] at h
      exact hInv t l h
  have hsend : ∀ (net : CallbackRequest → HttpResult) (st : SysState)
      (tid : String) (p : EventPayload) (now : Nat), RegistryInv st →
      RegistryInv (send_callbacks net st tid p now).1 := by
    intro net st tid p now hInv
    cases hc : st.task_callbacks tid with
    | none =>
        have heq : (send_callbacks net st tid p now).1 = st := by
          simp [send_callbacks, hc]
        rw [heq]
        exact hInv
    | some l =>
        rw [send_callbacks_phases net st tid p now l hc]
        intro t l' h
        by_cases ht : t = tid
        · subst ht
          rw [deliverCleanup_lookup] at h
          cases h
        · have heq : (deliverCleanup st tid).task_callbacks t =
              st.task_callbacks t := by
            simp [deliverCleanup, updateMap, ht]
          rw [heq] at h
          exact hInv t l' h
  refine ⟨?_, hreg, hsend, ?_, ?_⟩
  · intro t l h
    simp [initState] at h
  · intro net body st tid cid now hInv
    cases body with
    | ok => exact hsend net _ tid _ now hInv
    | raises e => exact hsend net st tid _ now hInv
  · intro st tid hInv
    constructor
    · intro h
      simp [deliverRead, h]
    · intro h
      cases hc : st.task_callbacks tid with
      | none => rfl
      | some l =>
          have : l = [] := by simpa [deliverRead, hc] using h
          exact absurd hc (by simp [this] at *; exact fun hx => hInv tid [] hx rfl)

/-- Witness for C9: the invariant, transported along two registrations from
the empty state, holds at `stTwo`, where the empty-branch characterization of
an unknown task id is concrete. -/
theorem C9_registry_nonempty_invariant_witness :
    RegistryInv stTwo ∧
    (stTwo.task_callbacks "t2" = none ↔ deliverRead stTwo "t2" = []) := by
  have h0 := C9_registry_nonempty_invariant
  have h1 := h0.2.1 initState "t1" "c1" "http://a/webhook" 0 h0.1
  have h2 := h0.2.1 stOne "t1" "c2" "http://b/webhook" 1 h1
  exact ⟨h2, h0.2.2.2.2 stTwo "t2" h2⟩

end CallbackTools
